import Mathlib

/-!
Verification of the Amazon headphones scraper (`scraper.py`).

Documents are modelled as `List Char`.  Each of the regular expressions in the
source is anchored by a literal marker and built from character classes,
whitespace gaps and literals whose alphabets are pairwise disjoint at every
backtracking point, so Python's leftmost `re.search` semantics reduce to a
deterministic scan: try every position from the left; at a position where the
literal marker is a prefix, run the (backtracking-free) tail matcher; on tail
failure move one character to the right.  The tail matchers below implement the
greedy/lazy quantifier behaviour of each concrete pattern exactly; a comment on
each records the pattern it implements and why no backtracking can occur.

`\s` and `str.strip` are modelled over the ASCII whitespace characters
(space, tab, newline, carriage return, vertical tab, form feed); the documents
involved are ASCII.  Python `float` results are modelled as exact rationals
(every value the claims mention, e.g. 4.5, is exactly representable), and the
string arguments ever passed to `to_float` / `to_int` are drawn from the
character classes `[0-9.]` / `[0-9,]`, on which the acceptance conditions of
Python's `float()` and `int()` are the ones implemented here.
-/

abbrev Str := List Char

/-- Python `\s` / `str.strip` whitespace, restricted to ASCII. -/
def isPySpace (c : Char) : Bool :=
  c = ' ' || c = '\t' || c = '\n' || c = '\r' || c = '\x0b' || c = '\x0c'

/-- The class `[0-9,]`. -/
def isCommaDigit (c : Char) : Bool := c.isDigit || c = ','

/-- The class `[0-9.,]` (also `[0-9,.]`). -/
def isPriceChar (c : Char) : Bool := c.isDigit || c = '.' || c = ','

/-- The class `[0-9.]`. -/
def isRatingChar (c : Char) : Bool := c.isDigit || c = '.'

/-- Drop the trailing run of characters satisfying `p`. -/
def dropTrailing (p : Char → Bool) (s : Str) : Str :=
  (s.reverse.dropWhile p).reverse

/-- Python `str.strip()` (ASCII whitespace). -/
def pyStrip (s : Str) : Str := dropTrailing isPySpace (s.dropWhile isPySpace)

/-- Helper for `collapseWs`: the flag records whether the previous character
was part of a whitespace run already emitted as a single space. -/
def collapseWsAux : Bool → Str → Str
  | _, [] => []
  | prevWs, c :: t =>
    if isPySpace c then
      if prevWs then collapseWsAux true t
      else ' ' :: collapseWsAux true t
    else c :: collapseWsAux false t

/-- `re.sub(r'\s+', ' ', s)`: collapse each whitespace run to a single space. -/
def collapseWs (s : Str) : Str := collapseWsAux false s

/-- Value of a digit string (characters assumed in `[0-9]`). -/
def digitsToNat (s : Str) : Nat :=
  s.foldl (fun n c => 10 * n + (c.toNat - 48)) 0

/-- Exact value of a decimal literal made of digits and at most one dot. -/
def ratOfDecimal (s : Str) : Rat :=
  let ip := s.takeWhile (fun c => c ≠ '.')
  let fp := (s.dropWhile (fun c => c ≠ '.')).drop 1
  mkRat (digitsToNat ip * 10 ^ fp.length + digitsToNat fp) (10 ^ fp.length)

/-- `to_float` of the source: `float(s)` wrapped in try/except, returning
`None` on failure.  On the alphabet `[0-9.]` that the callers produce,
`float(s)` succeeds exactly when `s` holds at least one digit and at most one
dot; the value is modelled as an exact rational. -/
def to_float (s : Str) : Option Rat :=
  if s.any Char.isDigit ∧ s.countP (fun c => c = '.') ≤ 1
      ∧ s.all (fun c => c.isDigit || c = '.') then
    some (ratOfDecimal s)
  else none

/-- `to_int` of the source: `int(s.replace(",", ""))` wrapped in try/except.
On the alphabet `[0-9,]` that the callers produce, the comma-stripped string
parses iff it is a nonempty digit string, and the value is non-negative. -/
def to_int (s : Str) : Option Nat :=
  let t := s.filter (fun c => c ≠ ',')
  if t ≠ [] ∧ t.all Char.isDigit then some (digitsToNat t) else none

/-- `re.search` for a pattern of the form `lit · tail`: try each start
position from the left; where `lit` is a literal prefix, run the
backtracking-free `tail` matcher on the rest; on failure advance one
position.  Returns the captured group. -/
def reSearch (lit : Str) (tail : Str → Option Str) : Str → Option Str
  | [] => none
  | c :: rest =>
    match (if lit.isPrefixOf (c :: rest)
           then tail (List.drop lit.length (c :: rest)) else none) with
    | some g => some g
    | none => reSearch lit tail rest

/-! ### Sample-variant patterns (`parse_sample_html`) -/

/-- Tail of `<span class="title">([^<]+)</span>`: the greedy `[^<]+` takes the
maximal run of non-`<` characters (shortening it would leave a non-`<`
character where `</span>` must start, so no backtracking), then the literal
`</span>` must follow. -/
def sampleTitleTail (s : Str) : Option Str :=
  let g := s.takeWhile (fun c => c ≠ '<')
  let r := s.dropWhile (fun c => c ≠ '<')
  if g = [] then none
  else if ("</span>".toList).isPrefixOf r then some g else none

/-- Tail of `<span class="price">\$?([0-9,.]+)</span>`: an optional `$`
(declining a present `$` would force the class to match `$`, impossible),
then the maximal `[0-9,.]+` run, then `</span>`. -/
def samplePriceTail (s : Str) : Option Str :=
  let s1 := match s with
    | '$' :: t => t
    | _ => s
  let g := s1.takeWhile isPriceChar
  let r := s1.dropWhile isPriceChar
  if g = [] then none
  else if ("</span>".toList).isPrefixOf r then some g else none

/-- Tail of `<span class="rating">([0-9.]+)\s*out of\s*5</span>`: maximal
`[0-9.]+` run (its characters are neither whitespace nor `o`), maximal
whitespace, literal `out of`, maximal whitespace, literal `5</span>`. -/
def sampleRatingTail (s : Str) : Option Str :=
  let g := s.takeWhile isRatingChar
  let r := s.dropWhile isRatingChar
  if g = [] then none
  else
    let r1 := r.dropWhile isPySpace
    if ("out of".toList).isPrefixOf r1 then
      if ("5</span>".toList).isPrefixOf ((r1.drop 6).dropWhile isPySpace) then
        some g
      else none
    else none

/-- Tail of `<span class="reviews">([0-9,]+)\s*ratings</span>`: maximal
`[0-9,]+` run, maximal whitespace, literal `ratings</span>`. -/
def sampleReviewsTail (s : Str) : Option Str :=
  if s.takeWhile isCommaDigit = [] then none
  else if ("ratings</span>".toList).isPrefixOf
      ((s.dropWhile isCommaDigit).dropWhile isPySpace) then
    some (s.takeWhile isCommaDigit)
  else none

def sampleTitleGroup (html : Str) : Option Str :=
  reSearch ("<span class=\"title\">".toList) sampleTitleTail html

def samplePriceGroup (html : Str) : Option Str :=
  reSearch ("<span class=\"price\">".toList) samplePriceTail html

def sampleRatingGroup (html : Str) : Option Str :=
  reSearch ("<span class=\"rating\">".toList) sampleRatingTail html

def sampleReviewsGroup (html : Str) : Option Str :=
  reSearch ("<span class=\"reviews\">".toList) sampleReviewsTail html

/-- The record built by either extractor: a Python dict with keys
`title`, `price`, `rating`, `reviews_count`, each possibly `None`. -/
structure ProductRecord where
  title : Option Str
  price : Option Str
  rating : Option Rat
  reviews_count : Option Nat
deriving DecidableEq, Repr

/-- `parse_sample_html`: runs the four searches and always returns a dict;
`title`/`price` are the stripped groups, `rating`/`reviews_count` go through
`to_float`/`to_int` when their pattern matched. -/
def parse_sample_html (html : Str) : ProductRecord :=
  { title := (sampleTitleGroup html).map pyStrip
  , price := (samplePriceGroup html).map pyStrip
  , rating := (sampleRatingGroup html).bind to_float
  , reviews_count := (sampleReviewsGroup html).bind to_int }

/-- The sample document, byte for byte the block shown in the source's
docstring for `parse_sample_html`. -/
def sampleDoc : Str :=
  ("<div class=\"item\">\n  <span class=\"title\">Beats Studio Buds</span>\n  <span class=\"price\">$99.99</span>\n  <span class=\"rating\">4.5 out of 5</span>\n  <span class=\"reviews\">27,532 ratings</span>\n</div>").toList

/-! ### Live-variant patterns (`parse_product_page`) -/

/-- Tail of `id="productTitle"[^>]*>\s*(.*?)\s*<` (with `re.S`): the greedy
`[^>]*` runs to the first `>` (shortening it would leave a non-`>` character
where `>` must match); the first `\s*` greedily eats the maximal whitespace
run (shortening it cannot help, since a whitespace character can never match
the final `<` via a shorter lazy group, see below); the lazy `(.*?)` then
grows just until a position from which maximal-`\s*`-then-`<` succeeds, which
is exactly the text up to the first following `<` with its trailing
whitespace stripped. -/
def liveTitleTail (s : Str) : Option Str :=
  match s.dropWhile (fun c => c ≠ '>') with
  | '>' :: r1 =>
    let r2 := r1.dropWhile isPySpace
    if r2.any (fun c => c = '<') then
      some (dropTrailing isPySpace (r2.takeWhile (fun c => c ≠ '<')))
    else none
  | _ => none

/-- Tail of `id="priceblock_ourprice"[^>]*>\s*\$([0-9.,]+)` (and the same for
`priceblock_dealprice`): `[^>]*` to the first `>`, maximal whitespace, a
mandatory `$` (not in `\s` nor in the class), then the maximal `[0-9.,]+`
run with nothing after it. -/
def pricePrefixTail (s : Str) : Option Str :=
  match s.dropWhile (fun c => c ≠ '>') with
  | '>' :: r1 =>
    match r1.dropWhile isPySpace with
    | '$' :: r2 =>
      let g := r2.takeWhile isPriceChar
      if g = [] then none else some g
    | _ => none
  | _ => none

/-- Tail of `class="a-price-whole">\s*([0-9,]+)\s*<` (the `>` belongs to the
literal): maximal whitespace, maximal `[0-9,]+` run (its characters are
neither whitespace nor `<`, so no backtracking), maximal whitespace, then a
mandatory `<`. -/
def apriceWholeTail (s : Str) : Option Str :=
  let r := s.dropWhile isPySpace
  let g := r.takeWhile isCommaDigit
  if g = [] then none
  else
    match (r.dropWhile isCommaDigit).dropWhile isPySpace with
    | '<' :: _ => some g
    | _ => none

/-- Tail of `class="a-price-fraction">\s*([0-9]{2})\s*<`: maximal whitespace,
exactly two digits, maximal whitespace, then a mandatory `<`. -/
def apriceFracTail (s : Str) : Option Str :=
  match s.dropWhile isPySpace with
  | a :: b :: r2 =>
    if a.isDigit && b.isDigit then
      match r2.dropWhile isPySpace with
      | '<' :: _ => some (a :: b :: [])
      | _ => none
    else none
  | _ => none

/-- Tail of `aria-label="([0-9.]+)\s*out of\s*5\s*stars"`: maximal `[0-9.]+`
run, maximal whitespace, literal `out of`, maximal whitespace, literal `5`,
maximal whitespace, literal `stars"`.  At every boundary the next mandatory
character is outside the preceding class, so the scan is deterministic. -/
def liveRatingTail (s : Str) : Option Str :=
  let g := s.takeWhile isRatingChar
  if g = [] then none
  else
    let r1 := (s.dropWhile isRatingChar).dropWhile isPySpace
    if ("out of".toList).isPrefixOf r1 then
      match (r1.drop 6).dropWhile isPySpace with
      | '5' :: r3 =>
        if ("stars\"".toList).isPrefixOf (r3.dropWhile isPySpace) then some g
        else none
      | _ => none
    else none

/-- Tail of
`id="acrCustomerReviewText"[^>]*>\s*([0-9,]+)\s*(?:ratings|reviews)\s*<`:
`[^>]*` to the first `>`, maximal whitespace, maximal `[0-9,]+` run, maximal
whitespace, then one of the mutually exclusive literals `ratings`/`reviews`
(both of length 7), maximal whitespace, and a mandatory `<`. -/
def liveReviewsTail (s : Str) : Option Str :=
  match s.dropWhile (fun c => c ≠ '>') with
  | '>' :: r1 =>
    let r2 := r1.dropWhile isPySpace
    let g := r2.takeWhile isCommaDigit
    if g = [] then none
    else
      let r4 := ((r2.dropWhile isCommaDigit)).dropWhile isPySpace
      if ("ratings".toList).isPrefixOf r4 || ("reviews".toList).isPrefixOf r4 then
        match (r4.drop 7).dropWhile isPySpace with
        | '<' :: _ => some g
        | _ => none
      else none
  | _ => none

def liveTitleGroup (html : Str) : Option Str :=
  reSearch ("id=\"productTitle\"".toList) liveTitleTail html

def liveOurPriceGroup (html : Str) : Option Str :=
  reSearch ("id=\"priceblock_ourprice\"".toList) pricePrefixTail html

def liveDealPriceGroup (html : Str) : Option Str :=
  reSearch ("id=\"priceblock_dealprice\"".toList) pricePrefixTail html

def apriceWholeGroup (html : Str) : Option Str :=
  reSearch ("class=\"a-price-whole\">".toList) apriceWholeTail html

def apriceFracGroup (html : Str) : Option Str :=
  reSearch ("class=\"a-price-fraction\">".toList) apriceFracTail html

def liveRatingGroup (html : Str) : Option Str :=
  reSearch ("aria-label=\"".toList) liveRatingTail html

def liveReviewsGroup (html : Str) : Option Str :=
  reSearch ("id=\"acrCustomerReviewText\"".toList) liveReviewsTail html

/-- The price cascade of `parse_product_page`: `priceblock_ourprice`, else
`priceblock_dealprice`, else the `a-price` whole/fraction pair, where the
whole part has its commas removed and the fraction defaults to `"00"`. -/
def livePrice (html : Str) : Option Str :=
  match liveOurPriceGroup html with
  | some p => some p
  | none =>
    match liveDealPriceGroup html with
    | some p => some p
    | none =>
      let mWhole := apriceWholeGroup html
      let mFrac := apriceFracGroup html
      match mWhole with
      | some w =>
        some ((w.filter (fun c => c ≠ ',')) ++ '.' :: (mFrac.getD ('0' :: '0' :: [])))
      | none => none

/-- Python truthiness of the `title` entry: `None` and the empty string are
falsy. -/
def pyFalsy : Option Str → Bool
  | none => true
  | some s => s.isEmpty

/-- `to_float(x) if x else None` / `to_int(x) if x else None` applied to an
optional matched group (the group strings are nonempty by construction, but
the emptiness test mirrors the source's truthiness check). -/
def pyTruthyBind (f : Str → Option α) : Option Str → Option α
  | none => none
  | some s => if s.isEmpty then none else f s

/-- `parse_product_page`: builds the dict from the per-field strategies
(`title` is the matched group with whitespace runs collapsed and then
stripped), then returns `None` when the title entry is falsy
(`if not result["title"]: return None`). -/
def parse_product_page (html : Str) : Option ProductRecord :=
  if pyFalsy ((liveTitleGroup html).map (fun g => pyStrip (collapseWs g))) then
    none
  else some
    { title := (liveTitleGroup html).map (fun g => pyStrip (collapseWs g))
    , price := livePrice html
    , rating := pyTruthyBind to_float (liveRatingGroup html)
    , reviews_count := pyTruthyBind to_int (liveReviewsGroup html) }

/-! ### Fetcher (`try_fetch`) and mode controller (`run_sample`, `run_live`) -/

/-- Outcome of `urlopen` + `read` for a given URL and timeout: a response
with an HTTP status and a raw byte body, a network-level error
(`HTTPError`/`URLError`), or any other exception. -/
inductive NetResult where
  | response (status : Nat) (body : List Nat)
  | netError
  | otherError
deriving DecidableEq

/-- Valid second byte for a three-byte sequence with lead byte `b`
(the E0/ED restrictions exclude overlong forms and surrogates). -/
def utf8Cont3 (b c : Nat) : Bool :=
  if b = 0xE0 then 0xA0 ≤ c ∧ c ≤ 0xBF
  else if b = 0xED then 0x80 ≤ c ∧ c ≤ 0x9F
  else 0x80 ≤ c ∧ c ≤ 0xBF

/-- Valid second byte for a four-byte sequence with lead byte `b`
(the F0/F4 restrictions exclude overlong forms and values above U+10FFFF). -/
def utf8Cont4 (b c : Nat) : Bool :=
  if b = 0xF0 then 0x90 ≤ c ∧ c ≤ 0xBF
  else if b = 0xF4 then 0x80 ≤ c ∧ c ≤ 0x8F
  else 0x80 ≤ c ∧ c ≤ 0xBF

def utf8IsCont (c : Nat) : Bool := 0x80 ≤ c ∧ c ≤ 0xBF

/-- Decode one unit from a lead byte `b` and the remaining bytes: `some c`
for a decoded character, `none` for an ill-formed maximal subpart (Python's
error handler fires once per such subpart), together with the bytes not yet
consumed. -/
def utf8Step (b : Nat) (rest : List Nat) : Option Char × List Nat :=
  if b < 0x80 then (some (Char.ofNat b), rest)
  else if 0xC2 ≤ b ∧ b ≤ 0xDF then
    match rest with
    | c :: rest2 =>
      if utf8IsCont c then
        (some (Char.ofNat ((b - 0xC0) * 64 + (c - 0x80))), rest2)
      else (none, rest)
    | [] => (none, [])
  else if 0xE0 ≤ b ∧ b ≤ 0xEF then
    match rest with
    | c :: rest2 =>
      if utf8Cont3 b c then
        match rest2 with
        | d :: rest3 =>
          if utf8IsCont d then
            (some (Char.ofNat ((b - 0xE0) * 4096 + (c - 0x80) * 64 + (d - 0x80))),
              rest3)
          else (none, rest2)
        | [] => (none, [])
      else (none, rest)
    | [] => (none, [])
  else if 0xF0 ≤ b ∧ b ≤ 0xF4 then
    match rest with
    | c :: rest2 =>
      if utf8Cont4 b c then
        match rest2 with
        | d :: rest3 =>
          if utf8IsCont d then
            match rest3 with
            | e :: rest4 =>
              if utf8IsCont e then
                (some (Char.ofNat
                    ((b - 0xF0) * 262144 + (c - 0x80) * 4096
                      + (d - 0x80) * 64 + (e - 0x80))),
                  rest4)
              else (none, rest3)
            | [] => (none, [])
          else (none, rest2)
        | [] => (none, [])
      else (none, rest)
    | [] => (none, [])
  else (none, rest)

theorem utf8Step_length_le (b : Nat) (rest : List Nat) :
    (utf8Step b rest).2.length ≤ rest.length := by
  rcases rest with _ | ⟨c, _ | ⟨d, _ | ⟨e, rest4⟩⟩⟩ <;>
    simp only [utf8Step] <;>
    (repeat' split) <;>
    simp_arith

/-- Iterate `utf8Step`; the fuel is only there to make the recursion
structural and is irrelevant once it is at least the list length (each step
consumes at least the lead byte), see `utf8UnitsAux_fuel_irrelevant`. -/
def utf8UnitsAux : Nat → List Nat → List (Option Char)
  | _, [] => []
  | 0, _ :: _ => []
  | fuel + 1, b :: rest =>
    (utf8Step b rest).1 :: utf8UnitsAux fuel (utf8Step b rest).2

/-- The stream of decoded units of a byte string. -/
def utf8Units (l : List Nat) : List (Option Char) :=
  utf8UnitsAux l.length l

theorem utf8UnitsAux_fuel_irrelevant :
    ∀ (fuel fuel' : Nat) (l : List Nat), l.length ≤ fuel → l.length ≤ fuel' →
      utf8UnitsAux fuel l = utf8UnitsAux fuel' l := by
  intro fuel
  induction fuel with
  | zero =>
    intro fuel' l h _
    have hl : l = [] := List.length_eq_zero.mp (Nat.le_zero.mp h)
    subst hl
    cases fuel' <;> rfl
  | succ f ih =>
    intro fuel' l h h'
    cases l with
    | nil => cases fuel' <;> rfl
    | cons b rest =>
      cases fuel' with
      | zero => simp at h'
      | succ f' =>
        simp only [utf8UnitsAux]
        have hf : rest.length ≤ f := by simpa using h
        have hf' : rest.length ≤ f' := by simpa using h'
        congr 1
        exact ih f' (utf8Step b rest).2
          (Nat.le_trans (utf8Step_length_le b rest) hf)
          (Nat.le_trans (utf8Step_length_le b rest) hf')

/-- `bytes.decode("utf-8", errors="ignore")`: ill-formed subparts are
dropped. -/
def pyDecodeIgnore (bs : List Nat) : Str :=
  (utf8Units bs).filterMap id

/-- `bytes.decode("utf-8", errors="replace")`: ill-formed subparts become
U+FFFD. -/
def pyDecodeReplace (bs : List Nat) : Str :=
  (utf8Units bs).map (fun u => u.getD (Char.ofNat 0xFFFD))

/-- `try_fetch`: the network behaviour is an oracle from URL and timeout to
a `NetResult`.  A non-200 status yields `""`; a 200 status yields the body
decoded with the `ignore` handler; both error branches yield `""`.  The
return type has no error channel: the empty body is the sole failure
indicator. -/
def try_fetch (net : Str → Nat → NetResult) (url : Str) (timeout : Nat) : Str :=
  match net url timeout with
  | NetResult.response status body =>
    if status ≠ 200 then [] else pyDecodeIgnore body
  | NetResult.netError => []
  | NetResult.otherError => []

def CANDIDATE_URLS : List Str :=
  [ ("https://www.amazon.com/dp/B096SV8N4C").toList
  , ("https://www.amazon.com/Beats-Studio-Buds-Noise-Cancelling/dp/B096SV8N4C").toList ]

/-- `run_sample`: `none` when `sample.html` does not exist (message printed,
no record); otherwise the sample parse of its contents, which always
produces a record. -/
def run_sample (sampleFile : Option Str) : Option ProductRecord :=
  match sampleFile with
  | none => none
  | some html => some (parse_sample_html html)

/-- The candidate loop of `run_live`: an empty fetch or a failed parse moves
on to the next URL; exhaustion falls back to `run_sample`. -/
def run_live_loop (net : Str → Nat → NetResult) (sampleFile : Option Str) :
    List Str → Option ProductRecord
  | [] => run_sample sampleFile
  | url :: rest =>
    let html := try_fetch net url 15
    if html = [] then run_live_loop net sampleFile rest
    else
      match parse_product_page html with
      | some data => some data
      | none => run_live_loop net sampleFile rest

/-- `run_live`: iterate the fixed candidate list (default timeout 15). -/
def run_live (net : Str → Nat → NetResult) (sampleFile : Option Str) :
    Option ProductRecord :=
  run_live_loop net sampleFile CANDIDATE_URLS

/-! ### Concrete documents used by the theorems below -/

/-- A document with none of the markers of either variant. -/
def noTitleDoc : Str := ("<p>no product here</p>").toList

/-- A blocked-page document without the live title marker. -/
def blockedDoc : Str := ("<html><body>Robot Check</body></html>").toList

/-- A document whose live title marker matches but captures only
whitespace. -/
def emptyTitleDoc : Str := ("<h1 id=\"productTitle\" class=\"t\">\n   </h1>").toList

/-- A document containing only the `a-price-whole` marker, with whole part
`49` and no fraction marker. -/
def whole49Doc : Str := ("<span class=\"a-price-whole\">49</span>").toList

/-- A document where the `priceblock_ourprice` marker is present. -/
def ourPriceDoc : Str :=
  ("<p id=\"priceblock_ourprice\" class=\"x\">$1,299.00</p>").toList

/-- A document whose reviews markers (in both variants' syntaxes) end in the
word `reviews` instead of `ratings`, with a live title so that the live parse
returns a record. -/
def reviewsWordDoc : Str :=
  ("<span id=\"productTitle\">Beats Studio Buds</span><span class=\"reviews\">27,532 reviews</span><span id=\"acrCustomerReviewText\">27,532 reviews</span>").toList

/-- A document in which every numeric field's pattern matches but the matched
text fails numeric conversion: rating groups with two dots (`float` fails)
and reviews groups consisting of a lone comma (`int("")` fails). -/
def convFailDoc : Str :=
  ("<span class=\"title\">X</span><span class=\"rating\">4.5.5 out of 5</span><span class=\"reviews\">, ratings</span><p id=\"productTitle\">Y</p><span aria-label=\"4..5 out of 5 stars\">r</span><div id=\"acrCustomerReviewText\">, ratings</div>").toList

/-- The record the live parse produces on `convFailDoc`. -/
def convFailRec : ProductRecord :=
  { title := some ("Y".toList)
  , price := none
  , rating := none
  , reviews_count := none }

/-! ### Claim theorems -/

/-- **C1.** On the sample document given byte-for-byte as the fixed block of
the source's docstring, `parse_sample_html` returns the record with
title `"Beats Studio Buds"`, price `"99.99"`, rating `4.5` and
reviews_count `27532`. -/
theorem sample_extraction_fixed_block :
    parse_sample_html sampleDoc =
      { title := some ("Beats Studio Buds".toList)
      , price := some ("99.99".toList)
      , rating := some (4.5 : Rat)
      , reviews_count := some 27532 } := by
  have h45 : (4.5 : Rat) = mkRat 9 2 := by
    rw [Rat.mkRat_eq_div]; norm_num
  rw [h45]; decide

/-- **C3.** For every document, `parse_product_page` returns `None` when the
title marker does not match, and any record it does return has a non-null
title: the live extractor never reports a record with a null title. -/
theorem live_parse_requires_title (html : Str) :
    (liveTitleGroup html = none → parse_product_page html = none) ∧
    (∀ r, parse_product_page html = some r → r.title ≠ none) := by
  constructor
  · intro h
    simp [parse_product_page, h, pyFalsy]
  · intro r hr
    unfold parse_product_page at hr
    split at hr
    · exact absurd hr (by simp)
    · rename_i hfalsy
      cases hr
      intro hnone
      exact hfalsy (by
        rw [show (liveTitleGroup html).map (fun g => pyStrip (collapseWs g)) = none
          from hnone]
        rfl)

/-- Witness for C3 at a concrete blocked page: the title marker is absent and
the live parse indeed reports failure. -/
theorem live_parse_requires_title_witness :
    liveTitleGroup blockedDoc = none ∧ parse_product_page blockedDoc = none :=
  ⟨by decide, (live_parse_requires_title blockedDoc).1 (by decide)⟩

/-- **C10.** If the live title marker matches but the captured group collapses
to the empty string after whitespace normalisation and stripping, the live
parse fails exactly as if the marker had not matched, because the success
check treats the falsy empty title like an absent one. -/
theorem live_empty_title_rejected (html : Str) (g : Str)
    (hm : liveTitleGroup html = some g)
    (he : pyStrip (collapseWs g) = []) :
    parse_product_page html = none := by
  simp [parse_product_page, hm, he, pyFalsy]

/-- Witness for C10: a document whose title region holds only whitespace; the
marker matches with an empty capture and the parse returns `None`. -/
theorem live_empty_title_rejected_witness :
    liveTitleGroup emptyTitleDoc = some [] ∧
    parse_product_page emptyTitleDoc = none :=
  ⟨by decide, live_empty_title_rejected emptyTitleDoc [] (by decide) (by decide)⟩

/-- **C5 counterexample.** The claim states that the sample-variant extractor,
like the live one, reports failure rather than returning a record when its
title pattern does not match.  On a document without the title marker,
`parse_sample_html` nevertheless returns a record — one whose title field is
null — so the claim is false for the sample variant. -/
theorem sample_parse_null_title_record :
    sampleTitleGroup noTitleDoc = none ∧
    (parse_sample_html noTitleDoc).title = none := by
  exact ⟨by decide, by decide⟩

/-- **C5 (amended).** Only the live variant reports failure when the title
pattern does not match; the sample variant always returns a record and its
title field is null when its title pattern does not match. -/
theorem title_failure_asymmetry (html : Str) :
    (liveTitleGroup html = none → parse_product_page html = none) ∧
    (sampleTitleGroup html = none → (parse_sample_html html).title = none) := by
  constructor
  · intro h
    simp [parse_product_page, h, pyFalsy]
  · intro h
    simp [parse_sample_html, h]

/-- Witness for the amended C5 at a document with neither title marker. -/
theorem title_failure_asymmetry_witness :
    liveTitleGroup noTitleDoc = none ∧
    parse_product_page noTitleDoc = none ∧
    sampleTitleGroup noTitleDoc = none ∧
    (parse_sample_html noTitleDoc).title = none :=
  ⟨by decide, (title_failure_asymmetry noTitleDoc).1 (by decide),
    by decide, (title_failure_asymmetry noTitleDoc).2 (by decide)⟩

/-- **C6.** The live price cascade tries `priceblock_ourprice`, then
`priceblock_dealprice`, then the `a-price` whole/fraction pair combined as
`whole.fraction` with the fraction defaulting to `00`; the first successful
strategy wins and later ones are ignored.  In particular a document holding
only the whole marker with `49` yields the price `"49.00"`. -/
theorem live_price_strategy_order :
    (∀ html : Str,
      (∀ g, liveOurPriceGroup html = some g → livePrice html = some g) ∧
      (liveOurPriceGroup html = none →
        ∀ g, liveDealPriceGroup html = some g → livePrice html = some g) ∧
      (liveOurPriceGroup html = none → liveDealPriceGroup html = none →
        ∀ w, apriceWholeGroup html = some w →
          livePrice html = some ((w.filter (fun c => c ≠ ',')) ++
            '.' :: ((apriceFracGroup html).getD ('0' :: '0' :: [])))) ∧
      (liveOurPriceGroup html = none → liveDealPriceGroup html = none →
        apriceWholeGroup html = none → livePrice html = none)) ∧
    livePrice whole49Doc = some ("49.00".toList) := by
  constructor
  · intro html
    refine ⟨?_, ?_, ?_, ?_⟩ <;> intros <;> simp_all [livePrice]
  · decide

/-- Witness for C6: on a page with an `ourprice` marker the first strategy
fires and its group is returned verbatim. -/
theorem live_price_strategy_order_witness :
    liveOurPriceGroup ourPriceDoc = some ("1,299.00".toList) ∧
    livePrice ourPriceDoc = some ("1,299.00".toList) :=
  ⟨by decide, (live_price_strategy_order.1 ourPriceDoc).1 _ (by decide)⟩

/-- **C7.** For every network behaviour, URL and timeout, `try_fetch` returns
the empty body on a non-200 status, on a network-level error, and on any
other unexpected failure; its return type carries no error channel, so the
empty body is the sole failure indicator. -/
theorem try_fetch_failure_empty (net : Str → Nat → NetResult) (url : Str)
    (timeout : Nat) :
    (∀ status body, net url timeout = NetResult.response status body →
      status ≠ 200 → try_fetch net url timeout = []) ∧
    (net url timeout = NetResult.netError → try_fetch net url timeout = []) ∧
    (net url timeout = NetResult.otherError → try_fetch net url timeout = []) := by
  refine ⟨?_, ?_, ?_⟩ <;> intros <;> simp_all [try_fetch]

/-- Witness for C7 at a concrete 404 response and at a network error. -/
def net404 : Str → Nat → NetResult := fun _ _ => NetResult.response 404 []

theorem try_fetch_failure_empty_witness :
    net404 ("https://www.amazon.com/dp/B096SV8N4C").toList 15 =
      NetResult.response 404 [] ∧
    try_fetch net404 ("https://www.amazon.com/dp/B096SV8N4C").toList 15 = [] :=
  ⟨rfl, (try_fetch_failure_empty net404 _ 15).1 404 [] rfl (by decide)⟩

/-- **C4 counterexample.** The claim states that on a 200 status the body is
decoded with invalid byte sequences *replaced*.  The source decodes with
`errors="ignore"`, which *drops* them: on the single invalid byte `0xFF`,
`try_fetch` returns `""` while replacement decoding would return `"�"`. -/
def net255 : Str → Nat → NetResult :=
  fun _ _ => NetResult.response 200 (255 :: [])

theorem try_fetch_replace_counterexample :
    try_fetch net255 ("u").toList 15 ≠ pyDecodeReplace (255 :: []) := by decide

/-- **C4 (amended).** On a 200 status, `try_fetch` returns the body decoded
as UTF-8 with invalid byte sequences dropped (`errors="ignore"`) rather than
raising; decoding is total, so no decoding error can be signalled. -/
theorem try_fetch_decode_ignore (net : Str → Nat → NetResult) (url : Str)
    (timeout : Nat) (body : List Nat)
    (h : net url timeout = NetResult.response 200 body) :
    try_fetch net url timeout = pyDecodeIgnore body := by
  simp [try_fetch, h]

/-- Witness for the amended C4 at a concrete 200 response whose body decodes
to `"Hi"`. -/
def netHi : Str → Nat → NetResult :=
  fun _ _ => NetResult.response 200 (72 :: 105 :: [])

theorem try_fetch_decode_ignore_witness :
    netHi ("u").toList 15 = NetResult.response 200 (72 :: 105 :: []) ∧
    try_fetch netHi ("u").toList 15 = pyDecodeIgnore (72 :: 105 :: []) ∧
    pyDecodeIgnore (72 :: 105 :: []) = ("Hi").toList :=
  ⟨rfl, try_fetch_decode_ignore netHi (("u").toList) 15 (72 :: 105 :: []) rfl,
    by decide⟩

/-- If every candidate in a URL list yields an empty fetch or a failed parse,
the candidate loop falls through to `run_sample`. -/
theorem run_live_loop_all_fail (net : Str → Nat → NetResult)
    (sampleFile : Option Str) :
    ∀ urls : List Str,
      (∀ url ∈ urls, try_fetch net url 15 = [] ∨
        parse_product_page (try_fetch net url 15) = none) →
      run_live_loop net sampleFile urls = run_sample sampleFile := by
  intro urls
  induction urls with
  | nil => intro _; rfl
  | cons url rest ih =>
    intro h
    have hu := h url (List.mem_cons_self url rest)
    have hrest := ih (fun u hm => h u (List.mem_cons_of_mem url hm))
    rcases hu with he | hp
    · simp [run_live_loop, he, hrest]
    · by_cases hemp : try_fetch net url 15 = []
      · simp [run_live_loop, hemp, hrest]
      · simp [run_live_loop, hemp, hp, hrest]

/-- **C2.** If every candidate URL fails — the fetch returns empty, or the
fetch succeeds but the live parse fails — `run_live` falls back to the
sample-mode procedure and produces exactly the record of a direct
`run_sample` invocation on the same local document. -/
theorem run_live_all_fail_falls_back (net : Str → Nat → NetResult)
    (sampleFile : Option Str)
    (h : ∀ url ∈ CANDIDATE_URLS, try_fetch net url 15 = [] ∨
      parse_product_page (try_fetch net url 15) = none) :
    run_live net sampleFile = run_sample sampleFile :=
  run_live_loop_all_fail net sampleFile CANDIDATE_URLS h

/-- Witness for C2: with a network that always errors, both candidates fail
and the live run returns the sample record of `sampleDoc`. -/
def netAllFail : Str → Nat → NetResult := fun _ _ => NetResult.netError

theorem run_live_all_fail_falls_back_witness :
    (∀ url ∈ CANDIDATE_URLS, try_fetch netAllFail url 15 = [] ∨
      parse_product_page (try_fetch netAllFail url 15) = none) ∧
    run_live netAllFail (some sampleDoc) = run_sample (some sampleDoc) :=
  ⟨by decide,
    run_live_all_fail_falls_back netAllFail (some sampleDoc) (by decide)⟩

/-- **C8.** In either variant, when a rating or reviews-count pattern matched
but the matched text fails numeric conversion, the field silently degrades to
null; the failure never aborts the record (the sample variant always returns
a record, and the live parse's outcome depends only on the title entry). -/
theorem numeric_failure_degrades_to_null (html : Str) :
    (∀ g, sampleRatingGroup html = some g → to_float g = none →
      (parse_sample_html html).rating = none) ∧
    (∀ g, sampleReviewsGroup html = some g → to_int g = none →
      (parse_sample_html html).reviews_count = none) ∧
    (∀ g r, liveRatingGroup html = some g → to_float g = none →
      parse_product_page html = some r → r.rating = none) ∧
    (∀ g r, liveReviewsGroup html = some g → to_int g = none →
      parse_product_page html = some r → r.reviews_count = none) ∧
    (parse_product_page html = none ↔
      pyFalsy ((liveTitleGroup html).map (fun g => pyStrip (collapseWs g))) = true) := by
  refine ⟨?_, ?_, ?_, ?_, ?_⟩
  · intro g hg hf
    simp [parse_sample_html, hg, hf]
  · intro g hg hf
    simp [parse_sample_html, hg, hf]
  · intro g r hg hf hr
    unfold parse_product_page at hr
    split at hr
    · exact absurd hr (by simp)
    · cases hr
      show pyTruthyBind to_float (liveRatingGroup html) = none
      rw [hg]
      show (if g.isEmpty then none else to_float g) = none
      split
      · rfl
      · exact hf
  · intro g r hg hf hr
    unfold parse_product_page at hr
    split at hr
    · exact absurd hr (by simp)
    · cases hr
      show pyTruthyBind to_int (liveReviewsGroup html) = none
      rw [hg]
      show (if g.isEmpty then none else to_int g) = none
      split
      · rfl
      · exact hf
  · unfold parse_product_page
    split
    · simp_all
    · simp_all

/-- Witness for C8 on a document in which every numeric pattern matches with
an unconvertible group: every numeric field is null, yet both variants still
produce a record. -/
theorem numeric_failure_degrades_to_null_witness :
    sampleRatingGroup convFailDoc = some ("4.5.5".toList) ∧
    to_float ("4.5.5".toList) = none ∧
    (parse_sample_html convFailDoc).rating = none ∧
    sampleReviewsGroup convFailDoc = some (",".toList) ∧
    to_int (",".toList) = none ∧
    (parse_sample_html convFailDoc).reviews_count = none ∧
    liveRatingGroup convFailDoc = some ("4..5".toList) ∧
    liveReviewsGroup convFailDoc = some (",".toList) ∧
    parse_product_page convFailDoc = some convFailRec ∧
    convFailRec.rating = none ∧
    convFailRec.reviews_count = none :=
  ⟨by decide, by decide,
    (numeric_failure_degrades_to_null convFailDoc).1 ("4.5.5".toList)
      (by decide) (by decide),
    by decide, by decide,
    (numeric_failure_degrades_to_null convFailDoc).2.1 (",".toList)
      (by decide) (by decide),
    by decide, by decide, by decide,
    (numeric_failure_degrades_to_null convFailDoc).2.2.1 ("4..5".toList)
      convFailRec (by decide) (by decide) (by decide),
    (numeric_failure_degrades_to_null convFailDoc).2.2.2.1 (",".toList)
      convFailRec (by decide) (by decide) (by decide)⟩

/-- A successful `reSearch` happens at some suffix of the text: the literal
marker is a prefix of that suffix and the tail matcher succeeds right after
it. -/
theorem reSearch_eq_some (lit : Str) (tail : Str → Option Str) :
    ∀ (s g : Str), reSearch lit tail s = some g →
      ∃ t : Str, t <:+ s ∧ lit.isPrefixOf t = true ∧
        tail (t.drop lit.length) = some g := by
  intro s
  induction s with
  | nil =>
    intro g h
    simp [reSearch] at h
  | cons c rest ih =>
    intro g h
    unfold reSearch at h
    rcases hx : (if lit.isPrefixOf (c :: rest)
        then tail (List.drop lit.length (c :: rest)) else none) with _ | g'
    · rw [hx] at h
      replace h : reSearch lit tail rest = some g := h
      obtain ⟨t, hts, hp, htl⟩ := ih g h
      exact ⟨t, hts.trans (List.suffix_cons c rest), hp, htl⟩
    · rw [hx] at h
      replace h : some g' = some g := h
      cases h
      by_cases hl : lit.isPrefixOf (c :: rest)
      · rw [if_pos hl] at hx
        exact ⟨c :: rest, List.suffix_refl _, hl, hx⟩
      · rw [if_neg hl] at hx
        cases hx

/-- A successful sample-variant reviews match forces the literal word
`ratings` to occur in the document. -/
theorem sample_reviews_needs_ratings_word (html g : Str)
    (h : sampleReviewsGroup html = some g) :
    ("ratings".toList) <:+: html := by
  obtain ⟨t, hts, _, htl⟩ :=
    reSearch_eq_some ("<span class=\"reviews\">".toList) sampleReviewsTail html g h
  unfold sampleReviewsTail at htl
  split at htl
  · cases htl
  · split at htl
    · rename_i hp
      refine List.infix_iff_prefix_suffix.mpr
        ⟨List.dropWhile isPySpace (List.dropWhile isCommaDigit
          (List.drop ("<span class=\"reviews\">".toList).length t)), ?_, ?_⟩
      · have h1 : ("ratings".toList) <+: ("ratings</span>".toList) :=
          ⟨("</span>".toList), by decide⟩
        exact h1.trans ( List.isPrefixOf_iff_prefix.mp hp)
      · exact ((List.dropWhile_suffix isPySpace).trans
          ((List.dropWhile_suffix isCommaDigit).trans
            ((List.drop_suffix _ _).trans hts)))
    · cases htl

/-- **C9.** The live reviews pattern accepts either trailing word `ratings`
or `reviews`, while the sample pattern requires `ratings`: a successful
sample reviews extraction forces the word `ratings` to occur in the document,
and on a document whose reviews markers end in `reviews` the live variant
extracts `27532` while the sample variant leaves the field null. -/
theorem reviews_word_asymmetry :
    (∀ html : Str, (parse_sample_html html).reviews_count ≠ none →
      ("ratings".toList) <:+: html) ∧
    (parse_product_page reviewsWordDoc).map ProductRecord.reviews_count =
      some (some 27532) ∧
    (parse_sample_html reviewsWordDoc).reviews_count = none := by
  refine ⟨?_, by decide, by decide⟩
  intro html h
  rcases hg : sampleReviewsGroup html with _ | g
  · exact absurd (by simp [parse_sample_html, hg]) h
  · exact sample_reviews_needs_ratings_word html g hg

/-- Witness for C9: the sample document's successful reviews extraction
indeed implies the word `ratings` occurs in it. -/
theorem reviews_word_asymmetry_witness :
    (parse_sample_html sampleDoc).reviews_count ≠ none ∧
    ("ratings".toList) <:+: sampleDoc :=
  ⟨by decide, reviews_word_asymmetry.1 sampleDoc (by decide)⟩
